import Mathlib

/-!
Verification development for the Terminal-Bench adapter (`LatticeAgent` in
`benchmarks/terminal_bench/lattice_agent.py`).  The Python data model is
shallowly embedded: the ambient environment (`os.environ`) and the resolved
configuration are association lists of string pairs read with first-match
lookup, fallible code returns `Except`, and the run loop is embedded as an
explicit event trace.
-/

namespace LatticeAgent

/-! ### String-keyed dictionaries (model of Python `dict[str, str]`) -/

/-- First-match lookup, modelling `d.get(k)` / `os.environ.get(k)`. -/
def dget : List (String × String) → String → Option String
  | [], _ => none
  | (k', v) :: rest, k => if k' = k then some v else dget rest k

/-- In-place update `d[k] = v`: replaces the first binding of `k`, appends if absent. -/
def dset : List (String × String) → String → String → List (String × String)
  | [], k, v => [(k, v)]
  | (k', v') :: rest, k, v =>
      if k' = k then (k', v) :: rest else (k', v') :: dset rest k v

/-- `d.setdefault(k, v)`. -/
def dsetdefault (d : List (String × String)) (k v : String) : List (String × String) :=
  match dget d k with
  | some _ => d
  | none => dset d k v

/-- Removal of every binding of `k` (ambient variable unset). -/
def derase : List (String × String) → String → List (String × String)
  | [], _ => []
  | (k', v) :: rest, k => if k' = k then derase rest k else (k', v) :: derase rest k

/-- Python-truthy read: `os.environ.get(k)` filtered by `if value:`.  An empty
string is falsy in Python, so it reads the same as an absent key. -/
def ambientRead (ambient : List (String × String)) (k : String) : Option String :=
  match dget ambient k with
  | some v => if v ≠ "" then some v else none
  | none => none

/-- `env.get(k)` used in a Boolean position (`if env.get(k):`). -/
def truthyGet (env : List (String × String)) (k : String) : Bool :=
  ((dget env k).getD "") ≠ ""

/-! ### Python string primitives, modelled transparently over character lists
so that every definition evaluates inside the kernel. -/

/-- The ASCII whitespace stripped by Python `str.strip()`. -/
def pyIsSpace (c : Char) : Bool :=
  c = ' ' || c = '\t' || c = '\n' || c = '\r' || c.toNat = 11 || c.toNat = 12

/-- Python `s.strip()` (ASCII whitespace). -/
def pyStrip (s : String) : String :=
  ⟨((s.data.dropWhile pyIsSpace).reverse.dropWhile pyIsSpace).reverse⟩

/-- Python `c in s` for a single-character needle. -/
def pyContainsChar (s : String) (c : Char) : Bool := s.data.contains c

def splitFirstAux (c : Char) : List Char → List Char × List Char
  | [] => ([], [])
  | x :: xs => if x = c then ([], xs) else
      let p := splitFirstAux c xs
      (x :: p.1, p.2)

/-- Python `s.split(c, 1)` when `c` occurs in `s`: the part before the first
occurrence and the part after it. -/
def pySplitFirst (s : String) (c : Char) : String × String :=
  let p := splitFirstAux c s.data
  (⟨p.1⟩, ⟨p.2⟩)

/-- Python `s.startswith(pre)`. -/
def pyStartsWith (s pre : String) : Bool := List.isPrefixOf pre.data s.data

/-! ### Recognized environment variable names (`_PROVIDER_ENV_KEYS`, `_CONFIG_ENV_KEYS`) -/

def providerEnvKeys : List String :=
  ["ANTHROPIC_API_KEY", "ANTHROPIC_BASE_URL",
   "OPENAI_API_KEY", "OPENAI_BASE_URL", "OPENAI_API_BASE", "OPENAI_ORG_ID",
   "AZURE_OPENAI_API_KEY", "AZURE_OPENAI_ENDPOINT", "AZURE_OPENAI_DEPLOYMENT",
   "AZURE_OPENAI_API_VERSION",
   "GOOGLE_GENERATIVE_AI_API_KEY", "GOOGLE_API_KEY", "GOOGLE_BASE_URL"]

def configEnvKeys : List String :=
  ["LATTICE_AGENT_GIT_URL", "LATTICE_BUN_INSTALL_URL", "LATTICE_PROJECT_PATH",
   "LATTICE_PROJECT_CANDIDATES", "LATTICE_MODEL", "LATTICE_TIMEOUT_MS",
   "LATTICE_CONFIG_ROOT", "LATTICE_APP_ROOT", "LATTICE_WORKSPACE_ID",
   "LATTICE_EXPERIMENTS", "LATTICE_RUN_ARGS"]

def allEnvKeys : List String := providerEnvKeys ++ configEnvKeys

def defaultModel : String := "anthropic:claude-sonnet-4-5"

def defaultProjectCandidates : String := "/workspace:/app:/workspaces:/root/project"

/-! ### `_env` configuration resolution -/

/-- The copying loop at the top of `_env`: for each recognized key, copy the
ambient value into the fresh mapping only when it is truthy (non-empty). -/
def collectGo (ambient : List (String × String)) :
    List String → List (String × String) → List (String × String)
  | [], env => env
  | key :: rest, env =>
      collectGo ambient rest
        (match dget ambient key with
         | some value => if value ≠ "" then dset env key value else env
         | none => env)

def collectEnv (ambient : List (String × String)) : List (String × String) :=
  collectGo ambient allEnvKeys []

/-- The block of `env.setdefault(...)` calls in `_env`. -/
def withDefaults (env : List (String × String)) : List (String × String) :=
  dsetdefault
    (dsetdefault
      (dsetdefault
        (dsetdefault
          (dsetdefault env "LATTICE_MODEL" defaultModel)
          "LATTICE_CONFIG_ROOT" "/root/.lattice")
        "LATTICE_APP_ROOT" "/opt/lattice-app")
      "LATTICE_WORKSPACE_ID" "lattice-bench")
    "LATTICE_PROJECT_CANDIDATES" defaultProjectCandidates

/-- `model_value = self._model_name or env["LATTICE_MODEL"]` followed by
`model_value.strip()`. -/
def resolvedModelRaw (modelName : String) (env : List (String × String)) : String :=
  pyStrip (if modelName ≠ "" then modelName else (dget env "LATTICE_MODEL").getD "")

/-- The slash-to-colon rewrite: `model_value.split("/", 1)` joined with `:`,
applied only when the id contains `/` and no `:`. -/
def normalizeModel (v : String) : String :=
  if pyContainsChar v '/' && ! pyContainsChar v ':' then
    (pySplitFirst v '/').1 ++ ":" ++ (pySplitFirst v '/').2
  else v

/-- One step of `env[key] = env[key].strip()` (the key is always present at the
call sites; an absent key leaves the mapping unchanged). -/
def stripStep (e : List (String × String)) (key : String) : List (String × String) :=
  match dget e key with
  | some v => dset e key (pyStrip v)
  | none => e

/-- `env[key] = env[key].strip()` over the four always-defaulted keys. -/
def stripConfigKeys (env : List (String × String)) : List (String × String) :=
  ["LATTICE_CONFIG_ROOT", "LATTICE_APP_ROOT", "LATTICE_WORKSPACE_ID",
   "LATTICE_PROJECT_CANDIDATES"].foldl stripStep env

/-- Python `str.isdigit` restricted to ASCII: non-empty and all decimal digits. -/
def pyIsDigit (s : String) : Bool := s.data ≠ [] && s.data.all Char.isDigit

/-- `if self._experiments: env["LATTICE_EXPERIMENTS"] = self._experiments`. -/
def applyExperiments (experiments : Option String) (env : List (String × String)) :
    List (String × String) :=
  match experiments with
  | some e => if e ≠ "" then dset env "LATTICE_EXPERIMENTS" e else env
  | none => env

def modelEmptyMsg : String := "LATTICE_MODEL must be a non-empty string"

def googleMsg : String :=
  "Google models require GOOGLE_GENERATIVE_AI_API_KEY (preferred) or GOOGLE_API_KEY"

def timeoutMsg : String := "LATTICE_TIMEOUT_MS must be an integer"

def projectPathMsg : String := "LATTICE_PROJECT_PATH must be non-empty when provided"

/-- The walrus-guarded timeout validation:
`if timeout_value := env.get("LATTICE_TIMEOUT_MS"): if not timeout_value.strip().isdigit(): raise`. -/
def timeoutInvalid (env : List (String × String)) : Bool :=
  match dget env "LATTICE_TIMEOUT_MS" with
  | some tv => tv ≠ "" && ! pyIsDigit (pyStrip tv)
  | none => false

/-- The walrus-guarded project-path validation:
`if project_path := env.get("LATTICE_PROJECT_PATH"): if not project_path.strip(): raise`. -/
def projectPathInvalid (env : List (String × String)) : Bool :=
  match dget env "LATTICE_PROJECT_PATH" with
  | some pv => pv ≠ "" && pyStrip pv = ""
  | none => false

/-- Body of `_env` after the ambient snapshot has been copied into `env`:
defaults, model normalization, and the fail-fast validations, in source order. -/
def resolveFromCollected (modelName : String) (experiments : Option String)
    (collected : List (String × String)) : Except String (List (String × String)) :=
  let env := withDefaults collected
  let modelValue := resolvedModelRaw modelName env
  if modelValue = "" then .error modelEmptyMsg
  else
    let modelValue := normalizeModel modelValue
    if pyStartsWith modelValue "google:"
        && ! truthyGet env "GOOGLE_GENERATIVE_AI_API_KEY"
        && ! truthyGet env "GOOGLE_API_KEY" then .error googleMsg
    else
      let env := stripConfigKeys (dset env "LATTICE_MODEL" modelValue)
      if timeoutInvalid env then .error timeoutMsg
      else if projectPathInvalid env then .error projectPathMsg
      else .ok (applyExperiments experiments env)

/-- The statement of the normalization rule in the words of the claim, for
comparison with the `normalizeModel` of the code: an id already containing `:` is untouched; an id
containing `/` (and no `:`) has its first `/` rewritten to `:`. -/
def specNormalizeModel (v : String) : String :=
  if pyContainsChar v ':' then v
  else if pyContainsChar v '/' then
    (pySplitFirst v '/').1 ++ ":" ++ (pySplitFirst v '/').2
  else v

/-- The fully-resolved model id (raw selection, trim, slash rewrite) as a
function of the resolver inputs. -/
def resolvedModelValue (modelName : String) (ambient : List (String × String)) : String :=
  normalizeModel (resolvedModelRaw modelName (withDefaults (collectEnv ambient)))

/-- The `_env` property: `modelName` is the constructor-normalized
`self._model_name`, `experiments` the constructor-normalized
`self._experiments`, `ambient` the ambient `os.environ`. -/
def resolveEnv (modelName : String) (experiments : Option String)
    (ambient : List (String × String)) : Except String (List (String × String)) :=
  resolveFromCollected modelName experiments (collectEnv ambient)

/-- Constructor normalization `(model_name or "").strip()`. -/
def ctorModelName (m : String) : String := pyStrip m

/-- Boolean success test for a resolution outcome. -/
def resolveOk (r : Except String (List (String × String))) : Bool :=
  match r with
  | .ok _ => true
  | .error _ => false

/-- The resolved mapping of a successful outcome (empty on error). -/
def resolvedEnvOrEmpty (r : Except String (List (String × String))) :
    List (String × String) :=
  match r with
  | .ok env => env
  | .error _ => []

/-! ### Constructor effect on the ambient source (`__init__`, lines 83–84)

`if timeout is not None: os.environ["LATTICE_TIMEOUT_MS"] = str(int(timeout) * 1000)` -/

def initEnviron (timeout : Option Int) (environ : List (String × String)) :
    List (String × String) :=
  match timeout with
  | some t => dset environ "LATTICE_TIMEOUT_MS" (toString (t * 1000))
  | none => environ

/-! ### Telemetry harvest (`run` lines 273–282 and `populate_context_post_run`) -/

/-- Dynamic JSON values as returned by `json.loads`. -/
inductive JVal where
  | jnull
  | jbool (b : Bool)
  | jnum (q : ℚ)
  | jstr (s : String)
  | jarr (xs : List JVal)
  | jobj (fields : List (String × JVal))

/-- `v is None` on a parsed JSON value. -/
def JVal.isNull : JVal → Bool
  | .jnull => true
  | _ => false

/-- `data.get(k)` on a parsed JSON object (first match). -/
def jobjGet : List (String × JVal) → String → Option JVal
  | [], _ => none
  | (k', v) :: rest, k => if k' = k then some v else jobjGet rest k

/-- A Python value stored in an `Optional` attribute: `None` is the unset state. -/
def pyToOpt (v : JVal) : Option JVal :=
  if v.isNull then none else some v

/-- The three optional fields of the harness-owned run context touched by the
adapter (`context.n_input_tokens`, `context.n_output_tokens`,
`context.cost_usd`). -/
structure AgentContext where
  n_input_tokens : Option JVal
  n_output_tokens : Option JVal
  cost_usd : Option JVal

/-- `populate_context_post_run`.  `tokenFile` is the state of
`logs_dir/"lattice-tokens.json"`: `none` when the file does not exist,
`some (.error e)` when it exists but `json.loads` raises (absorbed by the
`except Exception: pass`, before any field assignment), `some (.ok data)`
when it parses.  A non-object `data` makes `data.get` raise `AttributeError`,
likewise absorbed before any field assignment. -/
def populate_context_post_run (tokenFile : Option (Except String JVal))
    (context : AgentContext) : AgentContext :=
  match tokenFile with
  | none => context
  | some (.error _) => context
  | some (.ok data) =>
    match data with
    | .jobj fields =>
        let context := { context with
          n_input_tokens := pyToOpt ((jobjGet fields "input").getD (.jnum 0)) }
        let context := { context with
          n_output_tokens := pyToOpt ((jobjGet fields "output").getD (.jnum 0)) }
        match jobjGet fields "cost_usd" with
        | some v => if v.isNull then context else { context with cost_usd := some v }
        | none => context
    | _ => context

/-- Tail of `run`: the stale local token file is unlinked, then
`environment.download_file` is attempted inside `try/except Exception: pass`,
so after a failed download the file is absent; a successful download yields
the parse outcome of the artifact.  `download = .error ()` models the raising
download. -/
def harvestTokenFile (download : Except Unit (Except String JVal)) :
    Option (Except String JVal) :=
  match download with
  | .error _ => none
  | .ok parsed => some parsed

def run_post (download : Except Unit (Except String JVal)) (context : AgentContext) :
    AgentContext :=
  populate_context_post_run (harvestTokenFile download) context

/-! ### Archive caching in `setup` (lines 205–214) -/

/-- Modelled from the spec: `build_app_archive` (PayloadBuilder, §4.2) lives in
`lattice_payload.py`, which is not among the provided sources.  Per §4.2 it
deterministically "produces a single compressed archive" of the included paths
under the root; it is modelled as a pure function of its inputs whose result
is a gzip blob, hence begins with the two gzip magic bytes and is non-empty. -/
def build_app_archive (repoRoot : String) (includePaths : List String) : List Nat :=
  0x1f :: 0x8b :: (repoRoot :: includePaths).foldr
    (fun s acc => s.data.map Char.toNat ++ 0 :: acc) []

/-- Treatment of the cached archive by one `setup` call
(`if not self._archive_bytes: self._archive_bytes = build_app_archive(...)`):
input is the `self._archive_bytes` field (`none` models Python `None`),
output is the updated field, the bytes staged by this call, and whether the
builder was invoked.  The Python `not` is falsy on both `None` and `b""`. -/
def setupArchiveStep (repoRoot : String) (includePaths : List String)
    (archiveBytes : Option (List Nat)) : Option (List Nat) × List Nat × Bool :=
  match archiveBytes with
  | some b =>
      if b = [] then
        let nb := build_app_archive repoRoot includePaths
        (some nb, nb, true)
      else (some b, b, false)
  | none =>
      let nb := build_app_archive repoRoot includePaths
      (some nb, nb, true)

/-- The `self._archive_bytes` field after `n` consecutive `setup` calls,
starting from `self._archive_bytes = None` set by the constructor. -/
def archiveStateAfter (repoRoot : String) (includePaths : List String) : Nat → Option (List Nat)
  | 0 => none
  | n + 1 => (setupArchiveStep repoRoot includePaths
      (archiveStateAfter repoRoot includePaths n)).1

/-! ### The command loop in `run` (lines 255–271), as an event trace -/

structure ExecResult where
  return_code : Int
  stdout : String
  stderr : String
  deriving DecidableEq

/-- The per-invocation log directory name, command- followed by the decimal
index. -/
def commandDirName (i : Nat) : String := "command-" ++ Nat.repr i

/-- Observable actions of the command loop: a file write into the log
directory of an invocation (tagged with the invocation index i from which the
directory name is derived), or the sandbox `exec` call. -/
inductive RunEvent where
  | writeFile (idx : Nat) (dir : String) (name : String) (content : String)
  | execCmd (idx : Nat) (cmd : String)
  deriving DecidableEq

/-- The events of one loop iteration, in program order: the command text is
written before `environment.exec`; after completion the return code is written
unconditionally and stdout/stderr only when non-empty. -/
def commandBlock (i : Nat) (cmd : String) (res : ExecResult) : List RunEvent :=
  [RunEvent.writeFile i (commandDirName i) "command.txt" cmd,
   RunEvent.execCmd i cmd,
   RunEvent.writeFile i (commandDirName i) "return-code.txt" (toString res.return_code)]
  ++ (if res.stdout ≠ "" then
        [RunEvent.writeFile i (commandDirName i) "stdout.txt" res.stdout] else [])
  ++ (if res.stderr ≠ "" then
        [RunEvent.writeFile i (commandDirName i) "stderr.txt" res.stderr] else [])

/-- `for i, exec_input in enumerate(...)`, from a given starting index.
Each invocation is paired with the `ExecResult` the sandbox returns for it. -/
def runTraceFrom : Nat → List (String × ExecResult) → List RunEvent
  | _, [] => []
  | i, (c, r) :: rest => commandBlock i c r ++ runTraceFrom (i + 1) rest

def runTrace (cmds : List (String × ExecResult)) : List RunEvent :=
  runTraceFrom 0 cmds

/-- `a` occurs at a strictly earlier position than `b` in `l`. -/
def precedes (a b : RunEvent) (l : List RunEvent) : Prop :=
  ∃ j k, j < k ∧ l.get? j = some a ∧ l.get? k = some b

/-! ### Setup ordering (C3: validation happens before sandbox interaction) -/

/-- Sandbox-facing actions issued by `setup`, in source order.  `env = self._env`
is the first statement of `setup`, so a resolution error aborts before any of
these actions is issued. -/
inductive SetupAction where
  | execMkdir
  | uploadArchive
  | uploadRunner
  | installTemplate
  | stageProviders
  deriving DecidableEq

def setupActions (modelName : String) (experiments : Option String)
    (ambient : List (String × String)) : Except String (List SetupAction) :=
  match resolveEnv modelName experiments ambient with
  | .error e => .error e
  | .ok _ => .ok [SetupAction.execMkdir, SetupAction.uploadArchive,
      SetupAction.uploadRunner, SetupAction.installTemplate, SetupAction.stageProviders]

/-- `data` is a JSON object. -/
def JVal.isObj : JVal → Bool
  | .jobj _ => true
  | _ => false

/-- Occurrence of `sub` anywhere in `s` (used to state that an error message
names a configuration key). -/
def containsSubAux (sub : List Char) : List Char → Bool
  | [] => sub.isEmpty
  | x :: xs => List.isPrefixOf sub (x :: xs) || containsSubAux sub xs

def pyContainsSub (s sub : String) : Bool := containsSubAux sub.data s.data

/-- The resolved mapping immediately before the timeout and project-path
validations: defaults applied, normalized model stored, config keys stripped. -/
def envAtValidation (modelName : String) (ambient : List (String × String)) :
    List (String × String) :=
  stripConfigKeys
    (dset (withDefaults (collectEnv ambient)) "LATTICE_MODEL"
      (resolvedModelValue modelName ambient))

/-- Concrete run for the command-loop contract: exit 0 with empty streams,
exit 1 with both streams non-empty, and a timeout-sentinel exit with partial
stdout only. -/
def cmdsW : List (String × ExecResult) :=
  [("cmd-a", ⟨0, "", ""⟩), ("cmd-b", ⟨1, "partial output", "error text"⟩),
   ("cmd-c", ⟨124, "partial", ""⟩)]

/-! ### Dictionary lemmas -/

theorem dget_dset_self (d : List (String × String)) (k v : String) :
    dget (dset d k v) k = some v := by
  induction d with
  | nil => simp [dset, dget]
  | cons p rest ih =>
      obtain ⟨k', v'⟩ := p
      by_cases h : k' = k
      · simp [dset, h, dget]
      · simp [dset, h, dget, ih]

theorem dget_dset_ne (d : List (String × String)) (k v k' : String) (h : k' ≠ k) :
    dget (dset d k v) k' = dget d k' := by
  induction d with
  | nil => simp [dset, dget, Ne.symm h]
  | cons p rest ih =>
      obtain ⟨a, b⟩ := p
      by_cases ha : a = k
      · subst ha
        simp [dset, dget, Ne.symm h]
      · simp [dset, ha, dget, ih]

theorem dget_dsetdefault_ne (d : List (String × String)) (k v k' : String) (h : k' ≠ k) :
    dget (dsetdefault d k v) k' = dget d k' := by
  unfold dsetdefault
  cases dget d k with
  | none => exact dget_dset_ne d k v k' h
  | some _ => rfl

theorem dget_derase_self (d : List (String × String)) (k : String) :
    dget (derase d k) k = none := by
  induction d with
  | nil => rfl
  | cons p rest ih =>
      obtain ⟨a, b⟩ := p
      by_cases ha : a = k
      · simpa [derase, ha] using ih
      · simpa [derase, ha, dget] using ih

theorem dget_derase_ne (d : List (String × String)) (k k' : String) (h : k' ≠ k) :
    dget (derase d k) k' = dget d k' := by
  induction d with
  | nil => rfl
  | cons p rest ih =>
      obtain ⟨a, b⟩ := p
      by_cases ha : a = k
      · subst ha
        simpa [derase, dget, Ne.symm h] using ih
      · by_cases ha' : a = k'
        · simp [derase, ha, dget, ha', h]
        · simpa [derase, ha, dget, ha'] using ih

/-! ### C1 -/

/-- C1: the claim says constructing the adapter with a seconds-based timeout
never mutates the shared ambient configuration source.  The code at
`lattice_agent.py:83-84` does the opposite: it writes the converted
milliseconds value into `os.environ`.  This theorem evaluates the constructor
effect at the failing input `timeout=30` against an initially empty ambient
source: afterwards the shared source holds `LATTICE_TIMEOUT_MS="30000"` and is
no longer empty. -/
theorem c1_constructor_mutates_ambient :
    dget (initEnviron (some 30) []) "LATTICE_TIMEOUT_MS" = some "30000"
      ∧ initEnviron (some 30) [] ≠ [] := by
  refine ⟨rfl, ?_⟩
  simp [initEnviron, dset]

/-- Helper: the value of the context after a successful harvest of a parsed
JSON object, field by field. -/
theorem populate_obj_spec (ctx : AgentContext) (fields : List (String × JVal)) :
    populate_context_post_run (some (.ok (.jobj fields))) ctx
      = { n_input_tokens := pyToOpt ((jobjGet fields "input").getD (.jnum 0)),
          n_output_tokens := pyToOpt ((jobjGet fields "output").getD (.jnum 0)),
          cost_usd := match jobjGet fields "cost_usd" with
            | some v => if v.isNull then ctx.cost_usd else some v
            | none => ctx.cost_usd } := by
  cases hc : jobjGet fields "cost_usd" with
  | none => simp [populate_context_post_run, hc]
  | some v =>
      by_cases hn : v.isNull
      · simp [populate_context_post_run, hc, hn]
      · simp [populate_context_post_run, hc, hn]

/-! ### C2 -/

/-- C2 counterexample: the claim says each context field is written only if not
already set.  At the concrete input below the context already holds input
tokens `5`, yet a successful harvest of the artifact `{"input": 7}`
overwrites the field with `7`. -/
theorem c2_counterexample :
    (populate_context_post_run (some (.ok (.jobj [("input", .jnum 7)])))
        ⟨some (.jnum 5), some (.jnum 6), some (.jnum 1)⟩).n_input_tokens
      ≠ (⟨some (.jnum 5), some (.jnum 6), some (.jnum 1)⟩ : AgentContext).n_input_tokens := by
  intro h
  have h7 : (populate_context_post_run (some (.ok (.jobj [("input", .jnum 7)])))
      ⟨some (.jnum 5), some (.jnum 6), some (.jnum 1)⟩).n_input_tokens
      = some (.jnum 7) := rfl
  rw [h7] at h
  norm_num at h

/-- C2 (amended): after a successful harvest of an object artifact, the input
and output token fields are written unconditionally — with the artifact value
(absent keys defaulting to `0`, a JSON `null` storing Python `None`) —
regardless of any value already set; the cost field is overwritten whenever the
artifact holds a non-null `cost_usd` and is left at its prior value when the
key is absent. -/
theorem c2_harvest_overwrites_fields (ctx : AgentContext) (fields : List (String × JVal)) :
    (populate_context_post_run (some (.ok (.jobj fields))) ctx).n_input_tokens
        = pyToOpt ((jobjGet fields "input").getD (.jnum 0))
      ∧ (populate_context_post_run (some (.ok (.jobj fields))) ctx).n_output_tokens
        = pyToOpt ((jobjGet fields "output").getD (.jnum 0))
      ∧ (∀ v, jobjGet fields "cost_usd" = some v → v.isNull = false →
          (populate_context_post_run (some (.ok (.jobj fields))) ctx).cost_usd = some v)
      ∧ (jobjGet fields "cost_usd" = none →
          (populate_context_post_run (some (.ok (.jobj fields))) ctx).cost_usd
            = ctx.cost_usd) := by
  rw [populate_obj_spec]
  refine ⟨rfl, rfl, ?_, ?_⟩
  · intro v hv hn
    simp [hv, hn]
  · intro hc
    simp [hc]

/-- C2 witness: the amended theorem applied at a context whose three fields are
already set and the artifact `{"input": 7, "cost_usd": 3}`. -/
theorem c2_harvest_overwrites_fields_witness :
    (populate_context_post_run
        (some (.ok (.jobj [("input", .jnum 7), ("cost_usd", .jnum 3)])))
        ⟨some (.jnum 5), some (.jnum 6), some (.jnum 1)⟩).n_input_tokens
        = some (.jnum 7)
      ∧ (populate_context_post_run
          (some (.ok (.jobj [("input", .jnum 7), ("cost_usd", .jnum 3)])))
          ⟨some (.jnum 5), some (.jnum 6), some (.jnum 1)⟩).cost_usd
        = some (.jnum 3) := by
  have h := c2_harvest_overwrites_fields
    ⟨some (.jnum 5), some (.jnum 6), some (.jnum 1)⟩
    [("input", .jnum 7), ("cost_usd", .jnum 3)]
  refine ⟨?_, ?_⟩
  · rw [h.1]; rfl
  · exact h.2.2.1 (.jnum 3) rfl rfl

/-! ### C4 -/

/-- C4: telemetry harvest degradation is absorbed.  A failing download leaves
the context untouched (token fields that were unset remain unset); a malformed
artifact (parse failure, or a parsed non-object on which `data.get` raises)
leaves the context untouched; missing numeric fields default to zero; a
missing `cost_usd` leaves an unset cost unset. -/
theorem c4_harvest_degradation_absorbed :
    (∀ ctx : AgentContext, run_post (.error ()) ctx = ctx)
      ∧ (∀ (ctx : AgentContext) (e : String),
          populate_context_post_run (some (.error e)) ctx = ctx)
      ∧ (∀ (ctx : AgentContext) (v : JVal), v.isObj = false →
          populate_context_post_run (some (.ok v)) ctx = ctx)
      ∧ (∀ (ctx : AgentContext) (fields : List (String × JVal)),
          jobjGet fields "input" = none →
          (populate_context_post_run (some (.ok (.jobj fields))) ctx).n_input_tokens
            = some (.jnum 0))
      ∧ (∀ (ctx : AgentContext) (fields : List (String × JVal)),
          jobjGet fields "output" = none →
          (populate_context_post_run (some (.ok (.jobj fields))) ctx).n_output_tokens
            = some (.jnum 0))
      ∧ (∀ (ctx : AgentContext) (fields : List (String × JVal)),
          jobjGet fields "cost_usd" = none → ctx.cost_usd = none →
          (populate_context_post_run (some (.ok (.jobj fields))) ctx).cost_usd
            = none) := by
  refine ⟨fun ctx => rfl, fun ctx e => rfl, ?_, ?_, ?_, ?_⟩
  · intro ctx v hv
    cases v <;> simp_all [populate_context_post_run, JVal.isObj]
  · intro ctx fields hi
    rw [populate_obj_spec]
    simp [hi, pyToOpt, JVal.isNull]
  · intro ctx fields ho
    rw [populate_obj_spec]
    simp [ho, pyToOpt, JVal.isNull]
  · intro ctx fields hc hu
    rw [populate_obj_spec]
    simp [hc, hu]

/-- C4 witness: the theorem applied at a fresh (all-unset) context, with the
malformed artifacts instantiated to a parse error and the non-object `[]`, and
the field-missing artifact instantiated to the empty JSON object. -/
theorem c4_harvest_degradation_absorbed_witness :
    run_post (.error ()) ⟨none, none, none⟩ = (⟨none, none, none⟩ : AgentContext)
      ∧ populate_context_post_run (some (.error "malformed")) ⟨none, none, none⟩
        = (⟨none, none, none⟩ : AgentContext)
      ∧ populate_context_post_run (some (.ok (.jarr []))) ⟨none, none, none⟩
        = (⟨none, none, none⟩ : AgentContext)
      ∧ (populate_context_post_run (some (.ok (.jobj []))) ⟨none, none, none⟩).n_input_tokens
        = some (.jnum 0)
      ∧ (populate_context_post_run (some (.ok (.jobj []))) ⟨none, none, none⟩).n_output_tokens
        = some (.jnum 0)
      ∧ (populate_context_post_run (some (.ok (.jobj []))) ⟨none, none, none⟩).cost_usd
        = none := by
  obtain ⟨h1, h2, h3, h4, h5, h6⟩ := c4_harvest_degradation_absorbed
  exact ⟨h1 _, h2 _ _, h3 _ (.jarr []) rfl, h4 _ [] rfl, h5 _ [] rfl, h6 _ [] rfl rfl⟩


theorem dget_stripStep_ne (e : List (String × String)) (key k : String) (h : k ≠ key) :
    dget (stripStep e key) k = dget e k := by
  unfold stripStep
  cases hd : dget e key with
  | none => rfl
  | some v => exact dget_dset_ne _ _ _ _ h

theorem stripConfigKeys_eq (env : List (String × String)) :
    stripConfigKeys env
      = stripStep (stripStep (stripStep (stripStep env "LATTICE_CONFIG_ROOT")
          "LATTICE_APP_ROOT") "LATTICE_WORKSPACE_ID") "LATTICE_PROJECT_CANDIDATES" := rfl

theorem dget_stripConfigKeys_ne (env : List (String × String)) (k : String)
    (h1 : k ≠ "LATTICE_CONFIG_ROOT") (h2 : k ≠ "LATTICE_APP_ROOT")
    (h3 : k ≠ "LATTICE_WORKSPACE_ID") (h4 : k ≠ "LATTICE_PROJECT_CANDIDATES") :
    dget (stripConfigKeys env) k = dget env k := by
  rw [stripConfigKeys_eq, dget_stripStep_ne _ _ _ h4, dget_stripStep_ne _ _ _ h3,
    dget_stripStep_ne _ _ _ h2, dget_stripStep_ne _ _ _ h1]

theorem dget_applyExperiments_ne (e : Option String) (env : List (String × String))
    (k : String) (h : k ≠ "LATTICE_EXPERIMENTS") :
    dget (applyExperiments e env) k = dget env k := by
  unfold applyExperiments
  cases e with
  | none => rfl
  | some s =>
      by_cases hs : s ≠ ""
      · simp only [if_pos hs]
        exact dget_dset_ne _ _ _ _ h
      · simp only [if_neg hs]

theorem normalizeModel_eq_spec (v : String) : normalizeModel v = specNormalizeModel v := by
  unfold normalizeModel specNormalizeModel
  by_cases hc : pyContainsChar v ':'
  · simp [hc]
  · by_cases hs : pyContainsChar v '/'
    · simp [hc, hs]
    · simp [hc, hs]

theorem resolve_ok_model (m : String) (e : Option String)
    (ambient env : List (String × String))
    (h : resolveEnv m e ambient = .ok env) :
    dget env "LATTICE_MODEL" = some (resolvedModelValue m ambient) := by
  simp only [resolveEnv, resolveFromCollected] at h
  split at h
  · cases h
  · split at h
    · cases h
    · split at h
      · cases h
      · split at h
        · cases h
        · injection h with h
          subst h
          rw [dget_applyExperiments_ne _ _ _ (by decide),
            dget_stripConfigKeys_ne _ _ (by decide) (by decide) (by decide) (by decide),
            dget_dset_self]
          rfl
/-- C7: for every model id and every resolution that succeeds, the stored
model id is exactly the claim-side normalization of the selected, trimmed raw
id: an id already containing a colon is untouched, an id containing a slash
but no colon has its first slash rewritten to a colon (`specNormalizeModel`,
stated in the words of the claim and proved equal to the code path). -/
theorem c7_model_normalization (m : String) (e : Option String)
    (ambient env : List (String × String))
    (h : resolveEnv m e ambient = .ok env) :
    dget env "LATTICE_MODEL"
      = some (specNormalizeModel (resolvedModelRaw m (withDefaults (collectEnv ambient)))) := by
  rw [resolve_ok_model m e ambient env h, resolvedModelValue, normalizeModel_eq_spec]

/-- C7 witness: the theorem applied to the two ids named by the claim:
anthropic/claude-sonnet-4-5 resolves to anthropic:claude-sonnet-4-5 and
anthropic:claude-sonnet-4-5 resolves unchanged. -/
theorem c7_model_normalization_witness :
    dget (resolvedEnvOrEmpty (resolveEnv "anthropic/claude-sonnet-4-5" none []))
        "LATTICE_MODEL" = some "anthropic:claude-sonnet-4-5"
      ∧ dget (resolvedEnvOrEmpty (resolveEnv "anthropic:claude-sonnet-4-5" none []))
        "LATTICE_MODEL" = some "anthropic:claude-sonnet-4-5" := by
  constructor
  · exact (c7_model_normalization "anthropic/claude-sonnet-4-5" none []
      (resolvedEnvOrEmpty (resolveEnv "anthropic/claude-sonnet-4-5" none [])) rfl).trans rfl
  · exact (c7_model_normalization "anthropic:claude-sonnet-4-5" none []
      (resolvedEnvOrEmpty (resolveEnv "anthropic:claude-sonnet-4-5" none [])) rfl).trans rfl

/-- C5: resolution fails with the Google-credential error if and only if the
resolved model id starts with the literal google provider prefix and neither
GOOGLE_GENERATIVE_AI_API_KEY nor GOOGLE_API_KEY is present (truthy) in the
resolved mapping; the error message names both accepted keys.  In particular
supplying either accepted key suppresses the error. -/
theorem c5_google_credentials_iff (m : String) (e : Option String)
    (ambient : List (String × String)) :
    (resolveEnv m e ambient = .error googleMsg
        ↔ (pyStartsWith (resolvedModelValue m ambient) "google:" = true
            ∧ truthyGet (withDefaults (collectEnv ambient)) "GOOGLE_GENERATIVE_AI_API_KEY" = false
            ∧ truthyGet (withDefaults (collectEnv ambient)) "GOOGLE_API_KEY" = false))
      ∧ pyContainsSub googleMsg "GOOGLE_GENERATIVE_AI_API_KEY" = true
      ∧ pyContainsSub googleMsg "GOOGLE_API_KEY" = true := by
  refine ⟨?_, by decide, by decide⟩
  simp only [resolveEnv, resolveFromCollected]
  split
  next h1 =>
    have hfalse : pyStartsWith (resolvedModelValue m ambient) "google:" = false := by
      unfold resolvedModelValue
      rw [h1]
      decide
    constructor
    · intro hh
      injection hh with hh
      exact absurd hh (by decide)
    · rintro ⟨hg, -, -⟩
      rw [hfalse] at hg
      cases hg
  next h1 =>
    split
    next h2 =>
      simp only [Bool.and_eq_true, Bool.not_eq_true'] at h2
      refine iff_of_true rfl ⟨?_, h2.1.2, h2.2⟩
      simpa only [resolvedModelValue] using h2.1.1
    next h2 =>
      have hr : ¬ (pyStartsWith (resolvedModelValue m ambient) "google:" = true
          ∧ truthyGet (withDefaults (collectEnv ambient)) "GOOGLE_GENERATIVE_AI_API_KEY" = false
          ∧ truthyGet (withDefaults (collectEnv ambient)) "GOOGLE_API_KEY" = false) := by
        rintro ⟨hg, hb, hc⟩
        simp only [resolvedModelValue] at hg
        exact h2 (by rw [hg, hb, hc]; rfl)
      split
      · exact iff_of_false (by intro hh; injection hh with hh; exact absurd hh (by decide)) hr
      · split
        · exact iff_of_false (by intro hh; injection hh with hh; exact absurd hh (by decide)) hr
        · exact iff_of_false (by intro hh; cases hh) hr
theorem collectStep_eq (a : List (String × String)) (k : String)
    (acc : List (String × String)) :
    (match dget a k with
     | some value => if value ≠ "" then dset acc k value else acc
     | none => acc)
    = (match ambientRead a k with
       | some value => dset acc k value
       | none => acc) := by
  unfold ambientRead
  cases hd : dget a k with
  | none => rfl
  | some v =>
      by_cases hv : v ≠ ""
      · simp only [if_pos hv]
      · simp only [if_neg hv]

theorem collectGo_congr (a1 a2 : List (String × String)) (keys : List String)
    (acc : List (String × String))
    (h : ∀ k, k ∈ keys → ambientRead a1 k = ambientRead a2 k) :
    collectGo a1 keys acc = collectGo a2 keys acc := by
  induction keys generalizing acc with
  | nil => rfl
  | cons k ks ih =>
      unfold collectGo
      rw [collectStep_eq a1, collectStep_eq a2, h k (List.mem_cons_self k ks)]
      exact ih _ (fun k' hk' => h k' (List.mem_cons_of_mem k hk'))

theorem collectGo_dget_notmem (a : List (String × String)) (keys : List String)
    (acc : List (String × String)) (key : String) (h : key ∉ keys) :
    dget (collectGo a keys acc) key = dget acc key := by
  induction keys generalizing acc with
  | nil => rfl
  | cons k ks ih =>
      have hne : key ≠ k := fun hh => h (hh ▸ List.mem_cons_self k ks)
      unfold collectGo
      rw [collectStep_eq, ih _ (fun hh => h (List.mem_cons_of_mem k hh))]
      cases har : ambientRead a k with
      | none => rfl
      | some v => exact dget_dset_ne _ _ _ _ hne

theorem collectGo_dget_mem (a : List (String × String)) (keys : List String)
    (acc : List (String × String)) (key : String) (hnd : keys.Nodup)
    (hmem : key ∈ keys) (hacc : dget acc key = none) :
    dget (collectGo a keys acc) key = ambientRead a key := by
  induction keys generalizing acc with
  | nil => cases hmem
  | cons k ks ih =>
      unfold collectGo
      rw [collectStep_eq]
      by_cases hk : key = k
      · subst hk
        rw [collectGo_dget_notmem a ks _ key (List.nodup_cons.mp hnd).1]
        cases har : ambientRead a key with
        | none => rw [hacc]
        | some v => rw [dget_dset_self]
      · have hmem' : key ∈ ks := by
          cases List.mem_cons.mp hmem with
          | inl hh => exact absurd hh hk
          | inr hh => exact hh
        have hacc' : dget (match ambientRead a k with
            | some value => dset acc k value
            | none => acc) key = none := by
          cases har : ambientRead a k with
          | none => exact hacc
          | some v => rw [dget_dset_ne _ _ _ _ hk]; exact hacc
        exact ih _ (List.nodup_cons.mp hnd).2 hmem' hacc'

theorem allEnvKeys_nodup : allEnvKeys.Nodup := by decide

theorem collectEnv_dget (a : List (String × String)) (key : String)
    (h : key ∈ allEnvKeys) :
    dget (collectEnv a) key = ambientRead a key :=
  collectGo_dget_mem a allEnvKeys [] key allEnvKeys_nodup h rfl

theorem dget_withDefaults_ne (env : List (String × String)) (k : String)
    (h1 : k ≠ "LATTICE_MODEL") (h2 : k ≠ "LATTICE_CONFIG_ROOT")
    (h3 : k ≠ "LATTICE_APP_ROOT") (h4 : k ≠ "LATTICE_WORKSPACE_ID")
    (h5 : k ≠ "LATTICE_PROJECT_CANDIDATES") :
    dget (withDefaults env) k = dget env k := by
  unfold withDefaults
  rw [dget_dsetdefault_ne _ _ _ _ h5, dget_dsetdefault_ne _ _ _ _ h4,
    dget_dsetdefault_ne _ _ _ _ h3, dget_dsetdefault_ne _ _ _ _ h2,
    dget_dsetdefault_ne _ _ _ _ h1]

theorem ambientRead_ne_empty (a : List (String × String)) (k v : String)
    (h : ambientRead a k = some v) : v ≠ "" := by
  unfold ambientRead at h
  cases hd : dget a k with
  | none => rw [hd] at h; simp at h
  | some w =>
      rw [hd] at h
      by_cases hw : w ≠ ""
      · simp only at h
        rw [if_pos hw] at h
        injection h with h
        subst h
        exact hw
      · simp [hw] at h

theorem dget_envAtValidation (modelName : String) (ambient : List (String × String))
    (k : String) (hk : k ∈ allEnvKeys)
    (h1 : k ≠ "LATTICE_MODEL") (h2 : k ≠ "LATTICE_CONFIG_ROOT")
    (h3 : k ≠ "LATTICE_APP_ROOT") (h4 : k ≠ "LATTICE_WORKSPACE_ID")
    (h5 : k ≠ "LATTICE_PROJECT_CANDIDATES") :
    dget (envAtValidation modelName ambient) k = ambientRead ambient k := by
  unfold envAtValidation
  rw [dget_stripConfigKeys_ne _ _ h2 h3 h4 h5, dget_dset_ne _ _ _ _ h1,
    dget_withDefaults_ne _ _ h1 h2 h3 h4 h5, collectEnv_dget _ _ hk]
theorem timeoutInvalid_true (m : String) (ambient : List (String × String)) (tv : String)
    (h : ambientRead ambient "LATTICE_TIMEOUT_MS" = some tv)
    (hd : pyIsDigit (pyStrip tv) = false) :
    timeoutInvalid (envAtValidation m ambient) = true := by
  unfold timeoutInvalid
  rw [dget_envAtValidation m ambient _ (by decide) (by decide) (by decide) (by decide)
    (by decide) (by decide), h]
  simp [ambientRead_ne_empty _ _ _ h, hd]

theorem timeoutInvalid_false (m : String) (ambient : List (String × String)) (tv : String)
    (h : ambientRead ambient "LATTICE_TIMEOUT_MS" = some tv)
    (hd : pyIsDigit (pyStrip tv) = true) :
    timeoutInvalid (envAtValidation m ambient) = false := by
  unfold timeoutInvalid
  rw [dget_envAtValidation m ambient _ (by decide) (by decide) (by decide) (by decide)
    (by decide) (by decide), h]
  simp [hd]

theorem projectPathInvalid_true (m : String) (ambient : List (String × String)) (pv : String)
    (h : ambientRead ambient "LATTICE_PROJECT_PATH" = some pv)
    (hb : pyStrip pv = "") :
    projectPathInvalid (envAtValidation m ambient) = true := by
  unfold projectPathInvalid
  rw [dget_envAtValidation m ambient _ (by decide) (by decide) (by decide) (by decide)
    (by decide) (by decide), h]
  simp [ambientRead_ne_empty _ _ _ h, hb]

/-- C6 (amended): if LATTICE_TIMEOUT_MS is present (non-empty) and its
stripped value is not a digit string, resolution always fails; the failure is
the timeout error naming LATTICE_TIMEOUT_MS whenever the earlier model and
Google-credential validations pass (an earlier validation may otherwise
surface its own error first); a digit-string value such as 30000 never
produces the timeout error; and the timeout message names the key. -/
theorem c6_timeout_validation :
    (∀ (m : String) (e : Option String) (ambient : List (String × String)) (tv : String),
        ambientRead ambient "LATTICE_TIMEOUT_MS" = some tv →
        pyIsDigit (pyStrip tv) = false →
        resolveOk (resolveEnv m e ambient) = false)
      ∧ (∀ (m : String) (e : Option String) (ambient : List (String × String)) (tv : String),
          ambientRead ambient "LATTICE_TIMEOUT_MS" = some tv →
          pyIsDigit (pyStrip tv) = false →
          resolvedModelRaw m (withDefaults (collectEnv ambient)) ≠ "" →
          (pyStartsWith (resolvedModelValue m ambient) "google:"
              && ! truthyGet (withDefaults (collectEnv ambient)) "GOOGLE_GENERATIVE_AI_API_KEY"
              && ! truthyGet (withDefaults (collectEnv ambient)) "GOOGLE_API_KEY") = false →
          resolveEnv m e ambient = .error timeoutMsg)
      ∧ (∀ (m : String) (e : Option String) (ambient : List (String × String)) (tv : String),
          ambientRead ambient "LATTICE_TIMEOUT_MS" = some tv →
          pyIsDigit (pyStrip tv) = true →
          resolveEnv m e ambient ≠ .error timeoutMsg)
      ∧ pyContainsSub timeoutMsg "LATTICE_TIMEOUT_MS" = true := by
  refine ⟨?_, ?_, ?_, by decide⟩
  · intro m e ambient tv hr hd
    simp only [resolveEnv, resolveFromCollected]
    split
    · rfl
    · split
      · rfl
      · split
        · rfl
        · next h3 => exact absurd (timeoutInvalid_true m ambient tv hr hd) h3
  · intro m e ambient tv hr hd hm hg
    simp only [resolveEnv, resolveFromCollected]
    split
    · next h1 => exact absurd h1 hm
    · split
      · next h2 =>
          have h2a : (pyStartsWith (resolvedModelValue m ambient) "google:"
              && ! truthyGet (withDefaults (collectEnv ambient)) "GOOGLE_GENERATIVE_AI_API_KEY"
              && ! truthyGet (withDefaults (collectEnv ambient)) "GOOGLE_API_KEY") = true := h2
          rw [hg] at h2a
          cases h2a
      · split
        · rfl
        · next h3 => exact absurd (timeoutInvalid_true m ambient tv hr hd) h3
  · intro m e ambient tv hr hd
    simp only [resolveEnv, resolveFromCollected]
    split
    · intro hh; injection hh with hh; exact absurd hh (by decide)
    · split
      · intro hh; injection hh with hh; exact absurd hh (by decide)
      · split
        · next h3 =>
            have h3a : timeoutInvalid (envAtValidation m ambient) = true := h3
            rw [timeoutInvalid_false m ambient tv hr hd] at h3a
            cases h3a
        · split
          · intro hh; injection hh with hh; exact absurd hh (by decide)
          · intro hh; cases hh
/-- C6 counterexample: the claim says a present, unparsable
LATTICE_TIMEOUT_MS makes resolution raise an error naming that key.  With
ambient LATTICE_MODEL a blank string and LATTICE_TIMEOUT_MS not-a-number,
resolution raises the model error instead, whose message does not mention
LATTICE_TIMEOUT_MS. -/
theorem c6_counterexample :
    dget [("LATTICE_MODEL", " "), ("LATTICE_TIMEOUT_MS", "not-a-number")]
        "LATTICE_TIMEOUT_MS" = some "not-a-number"
      ∧ pyIsDigit (pyStrip "not-a-number") = false
      ∧ resolveEnv "" none [("LATTICE_MODEL", " "), ("LATTICE_TIMEOUT_MS", "not-a-number")]
        = .error modelEmptyMsg
      ∧ pyContainsSub modelEmptyMsg "LATTICE_TIMEOUT_MS" = false := by
  exact ⟨rfl, rfl, rfl, rfl⟩

/-- C6 witness: the amended theorem applied concretely: not-a-number fails
resolution with the timeout error in an otherwise clean configuration, and
30000 never triggers the timeout error. -/
theorem c6_timeout_validation_witness :
    resolveOk (resolveEnv "" none [("LATTICE_TIMEOUT_MS", "not-a-number")]) = false
      ∧ resolveEnv "" none [("LATTICE_TIMEOUT_MS", "not-a-number")] = .error timeoutMsg
      ∧ resolveEnv "" none [("LATTICE_TIMEOUT_MS", "30000")] ≠ .error timeoutMsg := by
  obtain ⟨h1, h2, h3, -⟩ := c6_timeout_validation
  exact ⟨h1 "" none [("LATTICE_TIMEOUT_MS", "not-a-number")] "not-a-number" rfl rfl,
    h2 "" none [("LATTICE_TIMEOUT_MS", "not-a-number")] "not-a-number" rfl rfl
      (by decide) rfl,
    h3 "" none [("LATTICE_TIMEOUT_MS", "30000")] "30000" rfl rfl⟩

/-- C3 counterexample: the claim says a present LATTICE_PROJECT_PATH whose
value is empty after trimming makes resolution raise.  An ambient value that
is the empty string is present and trims to empty, yet resolution succeeds,
because the copying loop drops falsy values before validation. -/
theorem c3_counterexample :
    dget [("LATTICE_PROJECT_PATH", "")] "LATTICE_PROJECT_PATH" = some ""
      ∧ pyStrip "" = ""
      ∧ resolveOk (resolveEnv defaultModel none [("LATTICE_PROJECT_PATH", "")]) = true := by
  exact ⟨rfl, rfl, rfl⟩

/-- C3 (amended): an empty-string LATTICE_PROJECT_PATH reads as unset; when
the variable is present with a non-empty value that is empty after trimming,
resolution always fails, and the failure is the project-path error naming
LATTICE_PROJECT_PATH whenever the earlier validations (model, Google
credentials, timeout) pass; any resolution error propagates out of setup
before any sandbox action is issued; the message names the key. -/
theorem c3_project_path_validation :
    (∀ (m : String) (e : Option String) (ambient : List (String × String)) (pv : String),
        ambientRead ambient "LATTICE_PROJECT_PATH" = some pv →
        pyStrip pv = "" →
        resolveOk (resolveEnv m e ambient) = false)
      ∧ (∀ (m : String) (e : Option String) (ambient : List (String × String)) (pv : String),
          ambientRead ambient "LATTICE_PROJECT_PATH" = some pv →
          pyStrip pv = "" →
          resolvedModelRaw m (withDefaults (collectEnv ambient)) ≠ "" →
          (pyStartsWith (resolvedModelValue m ambient) "google:"
              && ! truthyGet (withDefaults (collectEnv ambient)) "GOOGLE_GENERATIVE_AI_API_KEY"
              && ! truthyGet (withDefaults (collectEnv ambient)) "GOOGLE_API_KEY") = false →
          timeoutInvalid (envAtValidation m ambient) = false →
          resolveEnv m e ambient = .error projectPathMsg)
      ∧ (∀ (m : String) (e : Option String) (ambient : List (String × String)) (msg : String),
          resolveEnv m e ambient = .error msg → setupActions m e ambient = .error msg)
      ∧ pyContainsSub projectPathMsg "LATTICE_PROJECT_PATH" = true := by
  refine ⟨?_, ?_, ?_, by decide⟩
  · intro m e ambient pv hr hb
    simp only [resolveEnv, resolveFromCollected]
    split
    · rfl
    · split
      · rfl
      · split
        · rfl
        · split
          · rfl
          · next h4 => exact absurd (projectPathInvalid_true m ambient pv hr hb) h4
  · intro m e ambient pv hr hb hm hg ht
    simp only [resolveEnv, resolveFromCollected]
    split
    · next h1 => exact absurd h1 hm
    · split
      · next h2 =>
          have h2a : (pyStartsWith (resolvedModelValue m ambient) "google:"
              && ! truthyGet (withDefaults (collectEnv ambient)) "GOOGLE_GENERATIVE_AI_API_KEY"
              && ! truthyGet (withDefaults (collectEnv ambient)) "GOOGLE_API_KEY") = true := h2
          rw [hg] at h2a
          cases h2a
      · split
        · next h3 =>
            have h3a : timeoutInvalid (envAtValidation m ambient) = true := h3
            rw [ht] at h3a
            cases h3a
        · split
          · rfl
          · next h4 => exact absurd (projectPathInvalid_true m ambient pv hr hb) h4
  · intro m e ambient msg h
    simp [setupActions, h]

/-- C3 witness: the amended theorem applied at a whitespace-only project
path: resolution fails with the project-path error and setup performs no
sandbox action. -/
theorem c3_project_path_validation_witness :
    resolveOk (resolveEnv "" none [("LATTICE_PROJECT_PATH", "  ")]) = false
      ∧ resolveEnv "" none [("LATTICE_PROJECT_PATH", "  ")] = .error projectPathMsg
      ∧ setupActions "" none [("LATTICE_PROJECT_PATH", "  ")] = .error projectPathMsg := by
  obtain ⟨h1, h2, h3, -⟩ := c3_project_path_validation
  refine ⟨h1 "" none [("LATTICE_PROJECT_PATH", "  ")] "  " rfl rfl,
    h2 "" none [("LATTICE_PROJECT_PATH", "  ")] "  " rfl rfl (by decide) rfl rfl,
    h3 "" none [("LATTICE_PROJECT_PATH", "  ")] projectPathMsg
      (h2 "" none [("LATTICE_PROJECT_PATH", "  ")] "  " rfl rfl (by decide) rfl rfl)⟩
/-- C10: for every recognized provider or configuration variable whose
ambient value is the empty string, resolution behaves exactly as if the
variable were unset: the whole resolution outcome (resolved mapping or error)
is identical to that for the ambient source with the variable erased, so the
key is omitted, defaults apply in its place and no validation of the empty
value occurs. -/
theorem c10_empty_value_behaves_as_unset (m : String) (e : Option String)
    (ambient : List (String × String)) (k : String)
    (hk : k ∈ allEnvKeys) (hv : dget ambient k = some "") :
    resolveEnv m e ambient = resolveEnv m e (derase ambient k) := by
  unfold resolveEnv
  suffices hcol : collectEnv ambient = collectEnv (derase ambient k) by rw [hcol]
  unfold collectEnv
  apply collectGo_congr
  intro k' hk'
  by_cases hkk : k' = k
  · subst hkk
    unfold ambientRead
    rw [hv, dget_derase_self]
    simp
  · unfold ambientRead
    rw [dget_derase_ne _ _ _ hkk]

/-- C10 witness: the theorem applied to an ambient source holding only an
empty LATTICE_TIMEOUT_MS, which resolves exactly like the empty ambient
source (in particular the empty timeout value is not validated). -/
theorem c10_empty_value_behaves_as_unset_witness :
    resolveEnv "" none [("LATTICE_TIMEOUT_MS", "")] = resolveEnv "" none [] := by
  exact (c10_empty_value_behaves_as_unset "" none [("LATTICE_TIMEOUT_MS", "")]
    "LATTICE_TIMEOUT_MS" (by decide) rfl).trans rfl

theorem build_app_archive_ne_nil (r : String) (p : List String) :
    build_app_archive r p ≠ [] := by
  simp [build_app_archive]

/-- C9: the archive payload is built at most once per adapter instance: the
field starts unset, the first setup call invokes the builder and caches the
blob, and every later setup call returns the cached bytes without invoking
the builder again. -/
theorem c9_archive_built_once (root : String) (paths : List String) :
    archiveStateAfter root paths 0 = none
      ∧ (setupArchiveStep root paths (archiveStateAfter root paths 0)).2.2 = true
      ∧ (setupArchiveStep root paths (archiveStateAfter root paths 0)).2.1
        = build_app_archive root paths
      ∧ (∀ n, 1 ≤ n →
          archiveStateAfter root paths n = some (build_app_archive root paths)
            ∧ (setupArchiveStep root paths (archiveStateAfter root paths n)).2.2 = false
            ∧ (setupArchiveStep root paths (archiveStateAfter root paths n)).2.1
              = build_app_archive root paths) := by
  refine ⟨rfl, rfl, rfl, ?_⟩
  intro n hn
  induction n with
  | zero => exact absurd hn (by omega)
  | succ n ih =>
      by_cases h0 : n = 0
      · subst h0
        refine ⟨rfl, ?_, ?_⟩ <;>
          simp [archiveStateAfter, setupArchiveStep, build_app_archive_ne_nil root paths]
      · obtain ⟨hs, -, -⟩ := ih (by omega)
        have hstate : archiveStateAfter root paths (n + 1)
            = some (build_app_archive root paths) := by
          simp only [archiveStateAfter]
          rw [hs]
          simp [setupArchiveStep, build_app_archive_ne_nil root paths]
        refine ⟨hstate, ?_, ?_⟩ <;>
          · rw [hstate]
            simp [setupArchiveStep, build_app_archive_ne_nil root paths]

/-- C9 witness: the theorem applied at a concrete root and include list,
after two setup calls: the cache holds the built blob and a third call would
not rebuild. -/
theorem c9_archive_built_once_witness :
    archiveStateAfter "/repo" ["src", "dist"] 2
        = some (build_app_archive "/repo" ["src", "dist"])
      ∧ (setupArchiveStep "/repo" ["src", "dist"]
          (archiveStateAfter "/repo" ["src", "dist"] 2)).2.2 = false := by
  obtain ⟨-, -, -, h⟩ := c9_archive_built_once "/repo" ["src", "dist"]
  obtain ⟨h1, h2, -⟩ := h 2 (by omega)
  exact ⟨h1, h2⟩
theorem precedes_append_left (a b : RunEvent) (l1 l2 : List RunEvent)
    (h : precedes a b l2) : precedes a b (l1 ++ l2) := by
  obtain ⟨j, k, hjk, hj, hk⟩ := h
  refine ⟨l1.length + j, l1.length + k, by omega, ?_, ?_⟩
  · rw [List.get?_append_right (by omega)]
    simpa [Nat.add_sub_cancel_left] using hj
  · rw [List.get?_append_right (by omega)]
    simpa [Nat.add_sub_cancel_left] using hk

theorem precedes_runTraceFrom (cmds : List (String × ExecResult)) (i0 j : Nat)
    (c : String) (r : ExecResult) (h : cmds.get? j = some (c, r)) :
    precedes (.writeFile (i0 + j) (commandDirName (i0 + j)) "command.txt" c)
      (.execCmd (i0 + j) c) (runTraceFrom i0 cmds) := by
  induction cmds generalizing i0 j with
  | nil => simp at h
  | cons p rest ih =>
      obtain ⟨c0, r0⟩ := p
      cases j with
      | zero =>
          injection h with h
          cases h
          exact ⟨0, 1, by omega, rfl, rfl⟩
      | succ j' =>
          have hj : rest.get? j' = some (c, r) := h
          have ihh := ih (i0 + 1) j' hj
          rw [show i0 + 1 + j' = i0 + (j' + 1) by omega] at ihh
          exact precedes_append_left _ _ _ _ ihh

theorem mem_runTraceFrom (e : RunEvent) (cmds : List (String × ExecResult)) (i0 : Nat) :
    e ∈ runTraceFrom i0 cmds
      ↔ ∃ j c r, cmds.get? j = some (c, r) ∧ e ∈ commandBlock (i0 + j) c r := by
  induction cmds generalizing i0 with
  | nil => simp [runTraceFrom]
  | cons p rest ih =>
      obtain ⟨c0, r0⟩ := p
      simp only [runTraceFrom, List.mem_append, ih (i0 + 1)]
      constructor
      · rintro (hb | ⟨j, c, r, hj, hbj⟩)
        · exact ⟨0, c0, r0, rfl, hb⟩
        · refine ⟨j + 1, c, r, hj, ?_⟩
          rwa [show i0 + (j + 1) = i0 + 1 + j by omega]
      · rintro ⟨j, c, r, hj, hbj⟩
        cases j with
        | zero =>
            left
            injection hj with hj
            cases hj
            exact hbj
        | succ j' =>
            right
            refine ⟨j', c, r, hj, ?_⟩
            rwa [show i0 + 1 + j' = i0 + (j' + 1) by omega]

theorem writeFile_mem_commandBlock (i : Nat) (c : String) (r : ExecResult)
    (j : Nat) (d nm ct : String)
    (h : (RunEvent.writeFile j d nm ct) ∈ commandBlock i c r) :
    j = i ∧ d = commandDirName i
      ∧ ((nm = "command.txt" ∧ ct = c)
          ∨ (nm = "return-code.txt" ∧ ct = toString r.return_code)
          ∨ (nm = "stdout.txt" ∧ ct = r.stdout ∧ r.stdout ≠ "")
          ∨ (nm = "stderr.txt" ∧ ct = r.stderr ∧ r.stderr ≠ "")) := by
  unfold commandBlock at h
  by_cases ho : r.stdout ≠ "" <;> by_cases he : r.stderr ≠ "" <;>
    simp [ho, he] at h <;> tauto
/-- C8: for every sequence of command invocations in one run, invocation i
gets the zero-indexed log directory command-i; the literal command text is
persisted there before the exec event; the return code is persisted
unconditionally after completion; a stdout (resp. stderr) file exists in that
directory if and only if the stream is non-empty; every write lands in the
directory of the invocation that made it, and the files recorded against
invocation i are exactly its four possible files. -/
theorem c8_command_loop_contract (cmds : List (String × ExecResult)) (i : Nat)
    (c : String) (r : ExecResult) (h : cmds.get? i = some (c, r)) :
    precedes (.writeFile i (commandDirName i) "command.txt" c) (.execCmd i c)
        (runTrace cmds)
      ∧ (RunEvent.writeFile i (commandDirName i) "return-code.txt"
          (toString r.return_code)) ∈ runTrace cmds
      ∧ ((∃ s, (RunEvent.writeFile i (commandDirName i) "stdout.txt" s) ∈ runTrace cmds)
          ↔ r.stdout ≠ "")
      ∧ ((∃ s, (RunEvent.writeFile i (commandDirName i) "stderr.txt" s) ∈ runTrace cmds)
          ↔ r.stderr ≠ "")
      ∧ (∀ j d nm ct, (RunEvent.writeFile j d nm ct) ∈ runTrace cmds →
          d = commandDirName j)
      ∧ (∀ nm ct, (RunEvent.writeFile i (commandDirName i) nm ct) ∈ runTrace cmds →
          ((nm = "command.txt" ∧ ct = c)
            ∨ (nm = "return-code.txt" ∧ ct = toString r.return_code)
            ∨ (nm = "stdout.txt" ∧ ct = r.stdout ∧ r.stdout ≠ "")
            ∨ (nm = "stderr.txt" ∧ ct = r.stderr ∧ r.stderr ≠ ""))) := by
  have hmem : ∀ e : RunEvent, e ∈ runTrace cmds
      ↔ ∃ j c' r', cmds.get? j = some (c', r') ∧ e ∈ commandBlock j c' r' := by
    intro e
    rw [runTrace, mem_runTraceFrom]
    constructor
    · rintro ⟨j, c', r', hj, hb⟩
      rw [Nat.zero_add] at hb
      exact ⟨j, c', r', hj, hb⟩
    · rintro ⟨j, c', r', hj, hb⟩
      rw [← Nat.zero_add j] at hb
      exact ⟨j, c', r', hj, hb⟩
  have hsame : ∀ (j : Nat) (c' : String) (r' : ExecResult),
      cmds.get? j = some (c', r') → j = i → c' = c ∧ r' = r := by
    intro j c' r' hj hji
    subst hji
    rw [h] at hj
    injection hj with hj
    cases hj
    exact ⟨rfl, rfl⟩
  refine ⟨?_, ?_, ?_, ?_, ?_, ?_⟩
  · have hp := precedes_runTraceFrom cmds 0 i c r h
    rwa [Nat.zero_add] at hp
  · exact (hmem _).mpr ⟨i, c, r, h, by simp [commandBlock]⟩
  · constructor
    · rintro ⟨s, hs⟩
      obtain ⟨j, c', r', hj, hb⟩ := (hmem _).mp hs
      obtain ⟨hji, -, hcase⟩ := writeFile_mem_commandBlock j c' r' i _ _ _ hb
      obtain ⟨hc, hr⟩ := hsame j c' r' hj hji.symm
      subst hc; subst hr
      rcases hcase with ⟨h1, -⟩ | ⟨h1, -⟩ | ⟨-, -, h3⟩ | ⟨h1, -⟩
      · exact absurd h1 (by decide)
      · exact absurd h1 (by decide)
      · exact h3
      · exact absurd h1 (by decide)
    · intro ho
      exact ⟨r.stdout, (hmem _).mpr ⟨i, c, r, h, by simp [commandBlock, ho]⟩⟩
  · constructor
    · rintro ⟨s, hs⟩
      obtain ⟨j, c', r', hj, hb⟩ := (hmem _).mp hs
      obtain ⟨hji, -, hcase⟩ := writeFile_mem_commandBlock j c' r' i _ _ _ hb
      obtain ⟨hc, hr⟩ := hsame j c' r' hj hji.symm
      subst hc; subst hr
      rcases hcase with ⟨h1, -⟩ | ⟨h1, -⟩ | ⟨h1, -⟩ | ⟨-, -, h3⟩
      · exact absurd h1 (by decide)
      · exact absurd h1 (by decide)
      · exact absurd h1 (by decide)
      · exact h3
    · intro he
      exact ⟨r.stderr, (hmem _).mpr ⟨i, c, r, h, by simp [commandBlock, he]⟩⟩
  · intro j d nm ct hin
    obtain ⟨jb, c', r', hj, hb⟩ := (hmem _).mp hin
    obtain ⟨hji, hd, -⟩ := writeFile_mem_commandBlock jb c' r' j d nm ct hb
    rw [hji]
    exact hd
  · intro nm ct hin
    obtain ⟨jb, c', r', hj, hb⟩ := (hmem _).mp hin
    obtain ⟨hji, -, hcase⟩ := writeFile_mem_commandBlock jb c' r' i _ nm ct hb
    obtain ⟨hc, hr⟩ := hsame jb c' r' hj hji.symm
    subst hc; subst hr
    exact hcase
/-- C8 witness: the theorem applied to a concrete three-invocation run
(exit 0 with empty streams, exit 1 with both streams, timeout sentinel 124
with stdout only): return-code files hold 1 and 124, the stdout file exists
for invocation 1 and not for invocation 0, and the command text of
invocation 1 precedes its exec event. -/
theorem c8_command_loop_contract_witness :
    precedes (.writeFile 1 (commandDirName 1) "command.txt" "cmd-b") (.execCmd 1 "cmd-b")
        (runTrace cmdsW)
      ∧ (RunEvent.writeFile 1 (commandDirName 1) "return-code.txt" "1") ∈ runTrace cmdsW
      ∧ (∃ s, (RunEvent.writeFile 1 (commandDirName 1) "stdout.txt" s) ∈ runTrace cmdsW)
      ∧ ¬ (∃ s, (RunEvent.writeFile 0 (commandDirName 0) "stdout.txt" s) ∈ runTrace cmdsW)
      ∧ (RunEvent.writeFile 2 (commandDirName 2) "return-code.txt" "124") ∈ runTrace cmdsW := by
  have h0 := c8_command_loop_contract cmdsW 0 "cmd-a" ⟨0, "", ""⟩ rfl
  have h1 := c8_command_loop_contract cmdsW 1 "cmd-b" ⟨1, "partial output", "error text"⟩ rfl
  have h2 := c8_command_loop_contract cmdsW 2 "cmd-c" ⟨124, "partial", ""⟩ rfl
  exact ⟨h1.1, h1.2.1, h1.2.2.1.mpr (by decide),
    fun hex => (h0.2.2.1.mp hex) rfl, h2.2.1⟩

end LatticeAgent
